import Mathlib

set_option autoImplicit false

namespace NuxtAppwrite

/-! Shallow embedding of the nuxt-appwrite module's server-side logic:
configuration resolution (`src/module.ts`), the admin / JWT client
accessors and session verification (`src/runtime/server/utils/appwrite.ts`),
and the client-side `hasRole` helper (`useAppwrite` composable).

JavaScript strings that may be `null`/`undefined` are modelled as
`Option String`; JavaScript truthiness on such a value (empty string and
`null`/`undefined` are falsy) is `jsFalsy`.  Thrown exceptions are modelled
with `Except`; network calls (the Appwrite SDK's `users.get`,
`users.listSessions`, `teams.listMemberships`, `account.get`) are modelled
as parameters giving each call's outcome.  Object identity of SDK `Client`
instances is modelled by tagging every constructed client with a fresh
number drawn from an allocation counter in the process state.  Date parsing
of a session's `expire` string is abstracted: a session carries the parsed
millisecond timestamp directly, and `Date.now()` is the `now` parameter. -/

/-- Truthiness test for a JavaScript `string | null | undefined` value:
`null`/`undefined` and the empty string are falsy. -/
def jsFalsy : Option String → Bool
  | none => true
  | some s => s.isEmpty

/-- JavaScript `a || b` on strings: the empty string is falsy. -/
def jsOrStr (a b : String) : String :=
  if a = "" then b else a

-- ─── Configuration resolution (src/module.ts, setup) ─────────

/-- Inline module options after the module defaults are applied
(`module.ts` `defaults`: every key defaults to the empty string). -/
structure ModuleOptions where
  endpoint : String
  projectId : String
  databaseId : String
  storageBucketId : String
  adminTeamId : String
  apiKey : String
deriving DecidableEq

/-- The environment variables read in `module.ts` `setup`; `none` means the
variable is unset. -/
structure Env where
  NUXT_PUBLIC_APPWRITE_ENDPOINT : Option String
  NUXT_PUBLIC_APPWRITE_PROJECT_ID : Option String
  NUXT_PUBLIC_APPWRITE_DATABASE_ID : Option String
  NUXT_PUBLIC_APPWRITE_STORAGE_BUCKET_ID : Option String
  NUXT_PUBLIC_APPWRITE_ADMIN_TEAM_ID : Option String
  NUXT_APPWRITE_API_KEY : Option String
deriving DecidableEq

/-- The runtime configuration consumed by the server utilities: the public
group (`config.public.appwrite`) plus the private `apiKey`
(`config.appwrite.apiKey`). -/
structure AppwriteConfig where
  endpoint : String
  projectId : String
  databaseId : String
  storageBucketId : String
  adminTeamId : String
  apiKey : String
deriving DecidableEq

/-- One key's resolution expression in `module.ts` `setup`:
`options.key || process.env.VAR || ""` (an unset variable reads as
`undefined`, which is falsy). -/
def resolveConfigKey (opt : String) (envVar : Option String) : String :=
  jsOrStr opt (jsOrStr (envVar.getD "") "")

/-- The runtime-config values computed by `module.ts` `setup` for the
`appwrite` namespace (the values it merges into `runtimeConfig.public` and
`runtimeConfig`), one `resolveConfigKey` per key. -/
def resolveRuntimeConfig (options : ModuleOptions) (env : Env) : AppwriteConfig where
  endpoint := resolveConfigKey options.endpoint env.NUXT_PUBLIC_APPWRITE_ENDPOINT
  projectId := resolveConfigKey options.projectId env.NUXT_PUBLIC_APPWRITE_PROJECT_ID
  databaseId := resolveConfigKey options.databaseId env.NUXT_PUBLIC_APPWRITE_DATABASE_ID
  storageBucketId :=
    resolveConfigKey options.storageBucketId env.NUXT_PUBLIC_APPWRITE_STORAGE_BUCKET_ID
  adminTeamId := resolveConfigKey options.adminTeamId env.NUXT_PUBLIC_APPWRITE_ADMIN_TEAM_ID
  apiKey := resolveConfigKey options.apiKey env.NUXT_APPWRITE_API_KEY

-- ─── Clients and the singleton cache (appwrite.ts) ───────────

/-- A `node-appwrite` `Client` instance.  `instanceId` models JavaScript
object identity: every `new Client()` receives a fresh number from the
process-wide allocation counter. -/
structure Client where
  instanceId : Nat
  endpoint : String
  projectId : String
  apiKey : Option String
deriving DecidableEq

/-- The bundle returned by `_createAdminClient` / `useAppwriteAdmin` and by
`useAppwriteJWT`: all service handles are built from the one client, so the
bundle is identified by it. -/
structure ServiceBundle where
  client : Client
deriving DecidableEq

/-- The mutable module-level state of `appwrite.ts`: the `_adminClient`
singleton slot, plus the allocation counter for client identity. -/
structure ServerState where
  adminClient : Option ServiceBundle
  nextId : Nat
deriving DecidableEq

/-- The module state of a fresh process: empty singleton slot. -/
def initialServerState : ServerState :=
  { adminClient := none, nextId := 0 }

/-- An error escaping a server utility: either a plain `Error` thrown for a
missing configuration value, or an H3 `createError` with an HTTP status
code and status message. -/
inductive ServerError where
  | config (msg : String)
  | http (statusCode : Nat) (statusMessage : String)
deriving DecidableEq

/-- Message of the `Error` thrown by `_createAdminClient` when the endpoint
or project id is missing. -/
def missingEndpointAdminMsg : String :=
  "[nuxt-appwrite] Server: Missing endpoint or projectId. Set NUXT_PUBLIC_APPWRITE_ENDPOINT and NUXT_PUBLIC_APPWRITE_PROJECT_ID."

/-- Message of the `Error` thrown by `_createAdminClient` when the API key
is missing. -/
def missingApiKeyMsg : String :=
  "[nuxt-appwrite] Server: Missing API key. Set NUXT_APPWRITE_API_KEY to enable admin operations."

/-- Message of the `Error` thrown by `useAppwriteJWT` when the endpoint or
project id is missing. -/
def missingEndpointJWTMsg : String :=
  "[nuxt-appwrite] Server: Missing endpoint or projectId."

/-- Model of `_createAdminClient`: checks endpoint/projectId first, then the
API key, then builds a fresh client (advancing the allocation counter) with
the key set. -/
def _createAdminClient (cfg : AppwriteConfig) (st : ServerState) :
    Except ServerError (ServiceBundle × ServerState) :=
  if cfg.endpoint = "" ∨ cfg.projectId = "" then
    .error (.config missingEndpointAdminMsg)
  else if cfg.apiKey = "" then
    .error (.config missingApiKeyMsg)
  else
    let client : Client :=
      { instanceId := st.nextId, endpoint := cfg.endpoint,
        projectId := cfg.projectId, apiKey := some cfg.apiKey }
    .ok ({ client := client }, { st with nextId := st.nextId + 1 })

/-- Model of `useAppwriteAdmin`: returns the cached `_adminClient` bundle if
present; otherwise constructs it and stores it in the slot.  When
construction throws, the assignment does not happen, so the state is
returned unchanged. -/
def useAppwriteAdmin (cfg : AppwriteConfig) (st : ServerState) :
    Except ServerError ServiceBundle × ServerState :=
  match st.adminClient with
  | some b => (.ok b, st)
  | none =>
    match _createAdminClient cfg st with
    | .error e => (.error e, st)
    | .ok (b, st') => (.ok b, { st' with adminClient := some b })

/-- Model of `useAppwriteJWT`: checks endpoint/projectId, then always builds
a brand-new client (advancing the allocation counter) without an API key;
the singleton slot is not consulted or written. -/
def useAppwriteJWT (cfg : AppwriteConfig) (st : ServerState) :
    Except ServerError ServiceBundle × ServerState :=
  if cfg.endpoint = "" ∨ cfg.projectId = "" then
    (.error (.config missingEndpointJWTMsg), st)
  else
    let client : Client :=
      { instanceId := st.nextId, endpoint := cfg.endpoint,
        projectId := cfg.projectId, apiKey := none }
    (.ok { client := client }, { st with nextId := st.nextId + 1 })

/-- Discriminator: is this error an H3 `createError` with status 401 (the
shape of every authentication failure the spec describes)? -/
def ServerError.isHttp401 : ServerError → Bool
  | .http 401 _ => true
  | _ => false

-- ─── Session credential extraction (appwrite.ts) ─────────────

/-- The parts of an incoming H3 request read by
`_extractSessionCredentials`: three headers (`none` means absent) and the
parsed cookie jar (`parseCookies`; an association list, first binding
wins). -/
structure RequestData where
  authorizationHeader : Option String
  sessionHeader : Option String
  userIdHeader : Option String
  cookies : List (String × String)

/-- Cookie-jar lookup: `cookies[name]`, `none` when the cookie is absent. -/
def lookupCookie (cookies : List (String × String)) (name : String) : Option String :=
  (cookies.find? (fun p => p.1 = name)).map Prod.snd

/-- Step 1 of the extraction: the value assigned from the `Authorization`
header — `sessionId = authHeader.slice(7)` when
`authHeader?.startsWith("Bearer ")`, else `null`.  The prefix test and the
slice are written on the character list (`String.data`) of the header;
"Bearer " is 7 characters, so dropping 7 characters is `slice(7)`.  The
token may be empty. -/
def bearerToken (authorizationHeader : Option String) : Option String :=
  match authorizationHeader with
  | some h => if "Bearer ".data.isPrefixOf h.data then some (String.mk (h.data.drop 7)) else none
  | none => none

/-- The pair returned by `_extractSessionCredentials`. -/
structure SessionCredentials where
  sessionId : Option String
  userId : Option String
deriving DecidableEq

/-- Model of `_extractSessionCredentials`: `sessionId` from the
`Authorization: Bearer` header, then (when the current value is falsy) the
`x-appwrite-session` header (`?? null`), then (when still falsy, and only
when the configured projectId is truthy) the `a_session_<projectId>` cookie
with `a_session_<projectId>_legacy` as fallback (`?? ?? null`); `userId`
from the `x-appwrite-user-id` header only. -/
def _extractSessionCredentials (projectId : String) (req : RequestData) :
    SessionCredentials :=
  let s1 := bearerToken req.authorizationHeader
  let s2 := if jsFalsy s1 then req.sessionHeader else s1
  let s3 :=
    if jsFalsy s2 then
      if projectId = "" then s2
      else
        (lookupCookie req.cookies ("a_session_" ++ projectId)).orElse
          (fun _ => lookupCookie req.cookies ("a_session_" ++ projectId ++ "_legacy"))
    else s2
  { sessionId := s3, userId := req.userIdHeader }

-- ─── Session verification (appwrite.ts, useAppwriteSession) ──

/-- An Appwrite user record as returned by `users.get` (the fields are a
representative subset; `useAppwriteSession` passes the record through
unchanged, so their exact set does not matter). -/
structure AppwriteUser where
  id : String
  name : String
  email : String
  labels : List String
deriving DecidableEq

/-- An Appwrite session as it matters to `useAppwriteSession`: its `$id`
and its expiry.  `expire` is the parsed millisecond timestamp
`new Date(session.expire).getTime()`. -/
structure AppwriteSession where
  id : String
  expire : Int
deriving DecidableEq

/-- The outcomes of the two admin-SDK network calls `useAppwriteSession`
makes for a given user id; `.error` models the call throwing, with the
message carrying the backend error detail. -/
structure UsersApi where
  getUser : String → Except String AppwriteUser
  listSessions : String → Except String (List AppwriteSession)

/-- Model of `useAppwriteSession`.  Extracts credentials, fails 401
"Authentication required" when either is falsy, obtains the admin bundle
(whose construction error, if any, propagates as thrown — it is outside
both try/catch blocks), then: a failing `users.get` becomes 401 "Invalid
user"; a failing `users.listSessions`, no session with `$id` equal to the
extracted sessionId, or a found session with `expire < now` becomes 401
"Invalid or expired session"; otherwise the fetched user is returned
unchanged. -/
def useAppwriteSession (cfg : AppwriteConfig) (req : RequestData) (api : UsersApi)
    (now : Int) (st : ServerState) : Except ServerError AppwriteUser × ServerState :=
  let creds := _extractSessionCredentials cfg.projectId req
  if jsFalsy creds.sessionId || jsFalsy creds.userId then
    (.error (.http 401 "Authentication required"), st)
  else
    match useAppwriteAdmin cfg st with
    | (.error e, st') => (.error e, st')
    | (.ok _, st') =>
      let sid := creds.sessionId.getD ""
      let uid := creds.userId.getD ""
      match api.getUser uid with
      | .error _ => (.error (.http 401 "Invalid user"), st')
      | .ok user =>
        match api.listSessions uid with
        | .error _ => (.error (.http 401 "Invalid or expired session"), st')
        | .ok sessions =>
          match sessions.find? (fun s => s.id = sid) with
          | none => (.error (.http 401 "Invalid or expired session"), st')
          | some s =>
            if s.expire < now then
              (.error (.http 401 "Invalid or expired session"), st')
            else
              (.ok user, st')

-- ─── Role check (useAppwrite composable, hasRole) ────────────

/-- A team membership record as read by `hasRole`. -/
structure Membership where
  userId : String
  confirm : Bool
  roles : List String
deriving DecidableEq

/-- Model of the composable's `hasRole(teamId, role)`.  `isServer` is
`import.meta.server`; `listMemberships` and `getAccount` give the outcomes
of `teams.listMemberships(teamId)` and `account.get()` (`.error` models a
throw, caught and turned into `false`).  On success it takes the first
membership whose `userId` equals the current user's id with `confirm` set,
and reports whether its role list includes `role`. -/
def hasRole (isServer : Bool) (listMemberships : String → Except String (List Membership))
    (getAccount : Except String AppwriteUser) (teamId role : String) : Bool :=
  if isServer then false
  else
    match listMemberships teamId with
    | .error _ => false
    | .ok ms =>
      match getAccount with
      | .error _ => false
      | .ok u =>
        match ms.find? (fun m => m.userId = u.id && m.confirm) with
        | some m => m.roles.contains role
        | none => false

-- ─── Theorems ────────────────────────────────────────────────

/-- C4: for every configuration key, the value the module resolves is the
inline option when it is non-empty, otherwise the environment variable when
it is set, otherwise the empty string; each of the six keys of the produced
runtime config is resolved by exactly this rule from its own option/env
pair. -/
theorem config_resolution_precedence (options : ModuleOptions) (env : Env) :
    ((resolveRuntimeConfig options env).endpoint
        = resolveConfigKey options.endpoint env.NUXT_PUBLIC_APPWRITE_ENDPOINT
      ∧ (resolveRuntimeConfig options env).projectId
        = resolveConfigKey options.projectId env.NUXT_PUBLIC_APPWRITE_PROJECT_ID
      ∧ (resolveRuntimeConfig options env).databaseId
        = resolveConfigKey options.databaseId env.NUXT_PUBLIC_APPWRITE_DATABASE_ID
      ∧ (resolveRuntimeConfig options env).storageBucketId
        = resolveConfigKey options.storageBucketId env.NUXT_PUBLIC_APPWRITE_STORAGE_BUCKET_ID
      ∧ (resolveRuntimeConfig options env).adminTeamId
        = resolveConfigKey options.adminTeamId env.NUXT_PUBLIC_APPWRITE_ADMIN_TEAM_ID
      ∧ (resolveRuntimeConfig options env).apiKey
        = resolveConfigKey options.apiKey env.NUXT_APPWRITE_API_KEY)
    ∧ (∀ opt envVar, opt ≠ "" → resolveConfigKey opt envVar = opt)
    ∧ (∀ v, resolveConfigKey "" (some v) = v)
    ∧ resolveConfigKey "" none = "" := by
  refine ⟨⟨rfl, rfl, rfl, rfl, rfl, rfl⟩, ?_, ?_, rfl⟩
  · intro opt envVar h
    simp [resolveConfigKey, jsOrStr, h]
  · intro v
    by_cases hv : v = "" <;> simp [resolveConfigKey, jsOrStr, hv]

/-- Witness for C4 at concrete inputs: an inline value beats a set
environment variable, the environment variable beats the empty default, and
with neither the result is empty. -/
theorem config_resolution_precedence_witness :
    resolveConfigKey "inlineVal" (some "envVal") = "inlineVal"
    ∧ resolveConfigKey "" (some "envVal") = "envVal"
    ∧ resolveConfigKey "" none = "" := by
  obtain ⟨-, h1, h2, h3⟩ :=
    config_resolution_precedence
      ⟨"inlineVal", "", "", "", "", ""⟩ ⟨some "envVal", none, none, none, none, none⟩
  exact ⟨h1 "inlineVal" (some "envVal") (by decide), h2 "envVal", h3⟩

/-- C6: with an empty endpoint or project id, both accessors fail with a
configuration error (the `.config` variant, not an HTTP 401); with endpoint
and project id configured but an empty API key, the admin accessor fails
with the distinct API-key message; the two admin messages differ, so the
two conditions are distinguishable, and the endpoint/project check runs
first (the endpoint/project error is reported whatever the API key is). -/
theorem accessor_config_errors :
    (∀ cfg st, st.adminClient = none → (cfg.endpoint = "" ∨ cfg.projectId = "") →
      (useAppwriteAdmin cfg st).1 = .error (.config missingEndpointAdminMsg))
    ∧ (∀ cfg st, (cfg.endpoint = "" ∨ cfg.projectId = "") →
      (useAppwriteJWT cfg st).1 = .error (.config missingEndpointJWTMsg))
    ∧ (∀ cfg st, st.adminClient = none → cfg.endpoint ≠ "" → cfg.projectId ≠ "" →
      cfg.apiKey = "" →
      (useAppwriteAdmin cfg st).1 = .error (.config missingApiKeyMsg))
    ∧ missingEndpointAdminMsg ≠ missingApiKeyMsg := by
  refine ⟨?_, ?_, ?_, by decide⟩
  · intro cfg st hslot hmiss
    simp [useAppwriteAdmin, hslot, _createAdminClient, hmiss]
  · intro cfg st hmiss
    simp [useAppwriteJWT, hmiss]
  · intro cfg st hslot he hp hk
    simp [useAppwriteAdmin, hslot, _createAdminClient, he, hp, hk]

/-- Witness for C6 at concrete inputs: empty endpoint gives both accessors
the endpoint/project configuration error even though an API key is present,
and a configured endpoint/project with empty API key gives the admin
accessor the API-key error. -/
theorem accessor_config_errors_witness :
    (useAppwriteAdmin ⟨"", "p", "", "", "", "k"⟩ initialServerState).1
      = .error (.config missingEndpointAdminMsg)
    ∧ (useAppwriteJWT ⟨"", "p", "", "", "", "k"⟩ initialServerState).1
      = .error (.config missingEndpointJWTMsg)
    ∧ (useAppwriteAdmin ⟨"https://e", "p", "", "", "", ""⟩ initialServerState).1
      = .error (.config missingApiKeyMsg)
    ∧ missingEndpointAdminMsg ≠ missingApiKeyMsg := by
  obtain ⟨h1, h2, h3, h4⟩ := accessor_config_errors
  exact ⟨h1 ⟨"", "p", "", "", "", "k"⟩ initialServerState rfl (Or.inl rfl),
    h2 ⟨"", "p", "", "", "", "k"⟩ initialServerState (Or.inl rfl),
    h3 ⟨"https://e", "p", "", "", "", ""⟩ initialServerState rfl (by decide) (by decide) rfl,
    h4⟩

/-- Shape of a successful `useAppwriteAdmin` call: the returned state's
singleton slot holds exactly the returned bundle. -/
theorem useAppwriteAdmin_ok_slot (cfg : AppwriteConfig) (st : ServerState)
    (b : ServiceBundle) (st' : ServerState)
    (h : useAppwriteAdmin cfg st = (.ok b, st')) : st'.adminClient = some b := by
  match hslot : st.adminClient with
  | some b0 =>
    simp only [useAppwriteAdmin, hslot, Prod.mk.injEq, Except.ok.injEq] at h
    obtain ⟨hb, hst⟩ := h
    subst hb
    subst hst
    exact hslot
  | none =>
    match hc : _createAdminClient cfg st with
    | .error e0 => simp [useAppwriteAdmin, hslot, hc] at h
    | .ok (b0, st2) =>
      simp only [useAppwriteAdmin, hslot, hc, Prod.mk.injEq, Except.ok.injEq] at h
      obtain ⟨hb, hst⟩ := h
      subst hb
      subst hst
      rfl

/-- Shape of a failing `useAppwriteAdmin` call: the slot was empty,
construction failed, and the state comes back unchanged. -/
theorem useAppwriteAdmin_error_eq (cfg : AppwriteConfig) (st : ServerState) (e : ServerError)
    (h : (useAppwriteAdmin cfg st).1 = .error e) :
    useAppwriteAdmin cfg st = (.error e, st) ∧ st.adminClient = none := by
  match hslot : st.adminClient with
  | some b0 => simp [useAppwriteAdmin, hslot] at h
  | none =>
    match hc : _createAdminClient cfg st with
    | .ok (b0, st2) => simp [useAppwriteAdmin, hslot, hc] at h
    | .error e0 =>
      have heq : useAppwriteAdmin cfg st = (.error e0, st) := by
        simp [useAppwriteAdmin, hslot, hc]
      rw [heq] at h
      simp only [Except.error.injEq] at h
      subst h
      exact ⟨heq, rfl⟩

/-- A `useAppwriteAdmin` call on an empty slot with a fully configured
endpoint, project id and API key succeeds. -/
theorem useAppwriteAdmin_valid_ok (cfg : AppwriteConfig) (st : ServerState)
    (hslot : st.adminClient = none) (he : cfg.endpoint ≠ "") (hp : cfg.projectId ≠ "")
    (hk : cfg.apiKey ≠ "") : ∃ b, (useAppwriteAdmin cfg st).1 = .ok b := by
  refine ⟨⟨⟨st.nextId, cfg.endpoint, cfg.projectId, some cfg.apiKey⟩⟩, ?_⟩
  simp [useAppwriteAdmin, hslot, _createAdminClient, he, hp, hk]

/-- Shape of a successful `useAppwriteJWT` call: the fresh bundle is
numbered with the incoming allocation counter, which the returned state
advances by one. -/
theorem useAppwriteJWT_ok_shape (cfg : AppwriteConfig) (st : ServerState)
    (b : ServiceBundle) (st' : ServerState)
    (h : useAppwriteJWT cfg st = (.ok b, st')) :
    b.client.instanceId = st.nextId ∧ st'.nextId = st.nextId + 1 := by
  by_cases hmiss : cfg.endpoint = "" ∨ cfg.projectId = ""
  · simp [useAppwriteJWT, hmiss] at h
  · simp only [useAppwriteJWT, hmiss, if_false, Prod.mk.injEq, Except.ok.injEq] at h
    obtain ⟨hb, hst⟩ := h
    subst hb
    subst hst
    exact ⟨rfl, rfl⟩

/-- C5: once `useAppwriteAdmin` has returned a bundle, every later call —
with any configuration — returns that identical bundle with the state
untouched (constructed at most once, no invalidation or refresh path);
whereas two successive successful `useAppwriteJWT` calls return two
distinct bundles. -/
theorem admin_singleton_jwt_fresh :
    (∀ cfg st b st', useAppwriteAdmin cfg st = (.ok b, st') →
      ∀ cfg2, useAppwriteAdmin cfg2 st' = (.ok b, st'))
    ∧ (∀ cfg st b1 st1 b2 st2,
      useAppwriteJWT cfg st = (.ok b1, st1) →
      useAppwriteJWT cfg st1 = (.ok b2, st2) → b1 ≠ b2) := by
  constructor
  · intro cfg st b st' h cfg2
    have hslot := useAppwriteAdmin_ok_slot cfg st b st' h
    simp [useAppwriteAdmin, hslot]
  · intro cfg st b1 st1 b2 st2 h1 h2 heq
    obtain ⟨hid1, hn1⟩ := useAppwriteJWT_ok_shape cfg st b1 st1 h1
    obtain ⟨hid2, hn2⟩ := useAppwriteJWT_ok_shape cfg st1 b2 st2 h2
    rw [heq, hid2, hn1] at hid1
    exact Nat.succ_ne_self st.nextId hid1

/-- Witness for C5 at concrete inputs: with a fully configured process, the
second admin call returns the bundle of the first call unchanged, and two
JWT calls return bundles with different client instances. -/
theorem admin_singleton_jwt_fresh_witness :
    (useAppwriteAdmin ⟨"https://e", "p", "", "", "", "k"⟩
        ⟨some ⟨⟨0, "https://e", "p", some "k"⟩⟩, 1⟩
      = (.ok ⟨⟨0, "https://e", "p", some "k"⟩⟩, ⟨some ⟨⟨0, "https://e", "p", some "k"⟩⟩, 1⟩))
    ∧ (⟨⟨0, "https://e", "p", none⟩⟩ : ServiceBundle) ≠ ⟨⟨1, "https://e", "p", none⟩⟩ := by
  obtain ⟨h1, h2⟩ := admin_singleton_jwt_fresh
  constructor
  · exact h1 ⟨"https://e", "p", "", "", "", "k"⟩ initialServerState
      ⟨⟨0, "https://e", "p", some "k"⟩⟩ ⟨some ⟨⟨0, "https://e", "p", some "k"⟩⟩, 1⟩
      rfl ⟨"https://e", "p", "", "", "", "k"⟩
  · exact h2 ⟨"https://e", "p", "", "", "", "k"⟩ initialServerState
      ⟨⟨0, "https://e", "p", none⟩⟩ ⟨none, 1⟩
      ⟨⟨1, "https://e", "p", none⟩⟩ ⟨none, 2⟩ rfl rfl

/-- C8: when `useAppwriteAdmin` fails, the state is returned unchanged and
the singleton slot was and stays empty, so a later call with a valid
configuration constructs the bundle and succeeds — a failed first call does
not poison the accessor. -/
theorem admin_error_not_cached (cfg : AppwriteConfig) (st : ServerState) (e : ServerError)
    (h : (useAppwriteAdmin cfg st).1 = .error e) :
    (useAppwriteAdmin cfg st).2 = st ∧ st.adminClient = none ∧
    ∀ cfg2, cfg2.endpoint ≠ "" → cfg2.projectId ≠ "" → cfg2.apiKey ≠ "" →
      ∃ b, (useAppwriteAdmin cfg2 (useAppwriteAdmin cfg st).2).1 = .ok b := by
  obtain ⟨heq, hslot⟩ := useAppwriteAdmin_error_eq cfg st e h
  rw [heq]
  exact ⟨rfl, hslot, fun cfg2 he hp hk => useAppwriteAdmin_valid_ok cfg2 st hslot he hp hk⟩

/-- Witness for C8 at a concrete input: the first call with an empty API
key fails; calling again on the resulting state with the key now present
succeeds. -/
theorem admin_error_not_cached_witness :
    (useAppwriteAdmin ⟨"https://e", "p", "", "", "", ""⟩ initialServerState).2
      = initialServerState
    ∧ ∃ b, (useAppwriteAdmin ⟨"https://e", "p", "", "", "", "k"⟩
        (useAppwriteAdmin ⟨"https://e", "p", "", "", "", ""⟩ initialServerState).2).1
      = .ok b := by
  obtain ⟨h1, -, h3⟩ := admin_error_not_cached ⟨"https://e", "p", "", "", "", ""⟩
    initialServerState (.config missingApiKeyMsg) rfl
  exact ⟨h1, h3 ⟨"https://e", "p", "", "", "", "k"⟩ (by decide) (by decide) (by decide)⟩

/-- A non-empty string is not `isEmpty`. -/
theorem isEmpty_false_of_ne {s : String} (h : s ≠ "") : s.isEmpty = false := by
  cases hb : s.isEmpty
  · rfl
  · exact absurd ((String.isEmpty_iff s).1 hb) h

/-- Absent values are falsy. -/
theorem jsFalsy_none : jsFalsy none = true := rfl

/-- A present string is falsy exactly when it is empty. -/
theorem jsFalsy_some (s : String) : jsFalsy (some s) = s.isEmpty := rfl

/-- No Authorization header yields no Bearer token. -/
theorem bearerToken_none : bearerToken none = none := rfl

/-- C3: the sessionId is taken from the first source, in order, that yields
a (non-empty) value — the token after "Bearer " in the Authorization header
beats everything (in particular the x-appwrite-session header, which may
hold anything), then the x-appwrite-session header, then the
`a_session_<projectId>` cookie, then the `a_session_<projectId>_legacy`
cookie; each conjunct holds for every request, so a later source can never
influence the result once an earlier one matched.  The userId always comes
from the x-appwrite-user-id header alone. -/
theorem credential_extraction_precedence :
    (∀ projectId req a, req.authorizationHeader = some a →
      "Bearer ".data.isPrefixOf a.data = true → String.mk (a.data.drop 7) ≠ "" →
      (_extractSessionCredentials projectId req).sessionId = some (String.mk (a.data.drop 7)))
    ∧ (∀ projectId req v, jsFalsy (bearerToken req.authorizationHeader) = true →
      req.sessionHeader = some v → v ≠ "" →
      (_extractSessionCredentials projectId req).sessionId = some v)
    ∧ (∀ projectId req c, jsFalsy (bearerToken req.authorizationHeader) = true →
      jsFalsy req.sessionHeader = true → projectId ≠ "" →
      lookupCookie req.cookies ("a_session_" ++ projectId) = some c →
      (_extractSessionCredentials projectId req).sessionId = some c)
    ∧ (∀ projectId req c, jsFalsy (bearerToken req.authorizationHeader) = true →
      jsFalsy req.sessionHeader = true → projectId ≠ "" →
      lookupCookie req.cookies ("a_session_" ++ projectId) = none →
      lookupCookie req.cookies ("a_session_" ++ projectId ++ "_legacy") = some c →
      (_extractSessionCredentials projectId req).sessionId = some c)
    ∧ (∀ projectId req, (_extractSessionCredentials projectId req).userId = req.userIdHeader) := by
  refine ⟨?_, ?_, ?_, ?_, fun projectId req => rfl⟩
  · intro projectId req a hauth hstart hne
    have hb : bearerToken req.authorizationHeader = some (String.mk (a.data.drop 7)) := by
      simp [bearerToken, hauth, hstart]
    have hfalsy : jsFalsy (some (String.mk (a.data.drop 7))) = false := by
      rw [jsFalsy_some]
      exact isEmpty_false_of_ne hne
    simp [_extractSessionCredentials, hb, hfalsy]
  · intro projectId req v hb hsess hne
    have hfalsy : jsFalsy (some v) = false := by
      rw [jsFalsy_some]
      exact isEmpty_false_of_ne hne
    simp [_extractSessionCredentials, hb, hsess, hfalsy]
  · intro projectId req c hb hsess hp hcookie
    simp [_extractSessionCredentials, hb, hsess, hp, hcookie]
  · intro projectId req c hb hsess hp hc1 hc2
    simp [_extractSessionCredentials, hb, hsess, hp, hc1, hc2]

/-- Witness for C3 at concrete requests: a Bearer token wins over a present
x-appwrite-session header; with a Basic Authorization header the session
header wins over a present cookie; with neither header the cookie is used;
with the main cookie absent the legacy cookie is used; the userId is the
x-appwrite-user-id header. -/
theorem credential_extraction_precedence_witness :
    (_extractSessionCredentials "p"
        ⟨some "Bearer tok", some "hdr", some "u", [("a_session_p", "ck")]⟩).sessionId
      = some "tok"
    ∧ (_extractSessionCredentials "p"
        ⟨some "Basic zz", some "hdr", some "u", [("a_session_p", "ck")]⟩).sessionId
      = some "hdr"
    ∧ (_extractSessionCredentials "p"
        ⟨none, none, some "u", [("a_session_p", "ck"), ("a_session_p_legacy", "lg")]⟩).sessionId
      = some "ck"
    ∧ (_extractSessionCredentials "p"
        ⟨none, none, some "u", [("a_session_p_legacy", "lg")]⟩).sessionId
      = some "lg"
    ∧ (_extractSessionCredentials "p"
        ⟨some "Bearer tok", some "hdr", some "u", []⟩).userId
      = some "u" := by
  obtain ⟨h1, h2, h3, h4, h5⟩ := credential_extraction_precedence
  refine ⟨?_, ?_, ?_, ?_, h5 "p" ⟨some "Bearer tok", some "hdr", some "u", []⟩⟩
  · have hmk : String.mk ("Bearer tok".data.drop 7) = "tok" := by decide
    have h := h1 "p" ⟨some "Bearer tok", some "hdr", some "u", [("a_session_p", "ck")]⟩
      "Bearer tok" rfl (by decide) (by decide)
    rwa [hmk] at h
  · exact h2 "p" ⟨some "Basic zz", some "hdr", some "u", [("a_session_p", "ck")]⟩
      "hdr" (by decide) rfl (by decide)
  · exact h3 "p"
      ⟨none, none, some "u", [("a_session_p", "ck"), ("a_session_p_legacy", "lg")]⟩
      "ck" (by decide) (by decide) (by decide) (by decide)
  · exact h4 "p" ⟨none, none, some "u", [("a_session_p_legacy", "lg")]⟩
      "lg" (by decide) (by decide) (by decide) (by decide) (by decide)

/-- C9: an Authorization header that matches the Bearer pattern but whose
token is empty does not stop the search — extraction behaves exactly as if
the Authorization header were absent, so the x-appwrite-session header and
the cookies are still consulted; in particular a non-empty
x-appwrite-session header is then used. -/
theorem empty_bearer_token_falls_through (projectId : String) (req : RequestData)
    (a : String) (hauth : req.authorizationHeader = some a)
    (hstart : "Bearer ".data.isPrefixOf a.data = true)
    (hdrop : String.mk (a.data.drop 7) = "") :
    _extractSessionCredentials projectId req
      = _extractSessionCredentials projectId { req with authorizationHeader := none }
    ∧ (∀ v, req.sessionHeader = some v → v ≠ "" →
        (_extractSessionCredentials projectId req).sessionId = some v) := by
  have hb : bearerToken req.authorizationHeader = some "" := by
    simp [bearerToken, hauth, hstart, hdrop]
  have hemp : jsFalsy (some "") = true := rfl
  constructor
  · simp [_extractSessionCredentials, hb, hemp, bearerToken_none, jsFalsy_none]
  · intro v hsess hne
    have hfalsy : jsFalsy (some v) = false := by
      rw [jsFalsy_some]
      exact isEmpty_false_of_ne hne
    simp [_extractSessionCredentials, hb, hemp, hsess, hfalsy]

/-- Witness for C9 at a concrete request: with the header exactly
"Bearer " and an x-appwrite-session header "sess", extraction equals the
extraction without the Authorization header and yields "sess". -/
theorem empty_bearer_token_falls_through_witness :
    _extractSessionCredentials "p" ⟨some "Bearer ", some "sess", some "u", []⟩
      = _extractSessionCredentials "p" ⟨none, some "sess", some "u", []⟩
    ∧ (_extractSessionCredentials "p"
        ⟨some "Bearer ", some "sess", some "u", []⟩).sessionId = some "sess" := by
  obtain ⟨h1, h2⟩ := empty_bearer_token_falls_through "p"
    ⟨some "Bearer ", some "sess", some "u", []⟩ "Bearer " rfl (by decide) (by decide)
  exact ⟨h1, h2 "sess" rfl (by decide)⟩

/-- C10: with an empty configured projectId, the cookie sources are dead:
a request with no usable Bearer token and no x-appwrite-session header
extracts no sessionId whatever cookies it carries, and `useAppwriteSession`
fails 401 "Authentication required". -/
theorem empty_projectId_ignores_cookies (cfg : AppwriteConfig) (req : RequestData)
    (hp : cfg.projectId = "") (hb : jsFalsy (bearerToken req.authorizationHeader) = true)
    (hsess : req.sessionHeader = none) :
    (_extractSessionCredentials cfg.projectId req).sessionId = none
    ∧ ∀ api now st, (useAppwriteSession cfg req api now st).1
        = .error (.http 401 "Authentication required") := by
  have hext : (_extractSessionCredentials cfg.projectId req).sessionId = none := by
    simp [_extractSessionCredentials, hb, hsess, hp, jsFalsy_none]
  refine ⟨hext, fun api now st => ?_⟩
  simp [useAppwriteSession, hext, jsFalsy_none]

/-- Witness for C10 at a concrete input: empty projectId, a request with
only cookies (including a session cookie for an empty project name), no
sessionId extracted, and the session check fails with 401 "Authentication
required". -/
theorem empty_projectId_ignores_cookies_witness :
    (_extractSessionCredentials ""
        ⟨none, none, some "u", [("a_session_", "ck"), ("a_session_p", "ck")]⟩).sessionId
      = none
    ∧ (useAppwriteSession ⟨"https://e", "", "", "", "", "k"⟩
        ⟨none, none, some "u", [("a_session_", "ck"), ("a_session_p", "ck")]⟩
        ⟨fun _ => .error "down", fun _ => .error "down"⟩ 0 initialServerState).1
      = .error (.http 401 "Authentication required") := by
  obtain ⟨h1, h2⟩ := empty_projectId_ignores_cookies ⟨"https://e", "", "", "", "", "k"⟩
    ⟨none, none, some "u", [("a_session_", "ck"), ("a_session_p", "ck")]⟩
    rfl (by decide) rfl
  exact ⟨h1, h2 ⟨fun _ => .error "down", fun _ => .error "down"⟩ 0 initialServerState⟩

/-- C7: `hasRole` returns false unconditionally on the server, returns
false when the membership lookup or the account lookup throws (no exception
escapes — the model is a total function into `Bool`), and on the client
with both lookups succeeding returns true exactly when the membership list
contains a membership of the current user with `confirm` set whose role
list includes the given role.  The characterization assumes the backend
invariant that a user has at most one membership per team (with duplicate
confirmed memberships only the first is consulted). -/
theorem hasRole_characterization :
    (∀ lm ga teamId role, hasRole true lm ga teamId role = false)
    ∧ (∀ lm ga teamId role e, lm teamId = .error e →
      hasRole false lm ga teamId role = false)
    ∧ (∀ lm ga teamId role e ms, lm teamId = .ok ms → ga = .error e →
      hasRole false lm ga teamId role = false)
    ∧ (∀ lm (ga : Except String AppwriteUser) teamId role ms u,
      lm teamId = .ok ms → ga = .ok u →
      (∀ m1 ∈ ms, ∀ m2 ∈ ms, m1.userId = u.id → m1.confirm = true →
        m2.userId = u.id → m2.confirm = true → m1 = m2) →
      (hasRole false lm ga teamId role = true ↔
        ∃ m ∈ ms, m.userId = u.id ∧ m.confirm = true ∧ role ∈ m.roles)) := by
  refine ⟨fun lm ga teamId role => rfl, ?_, ?_, ?_⟩
  · intro lm ga teamId role e he
    simp [hasRole, he]
  · intro lm ga teamId role e ms hms hga
    simp [hasRole, hms, hga]
  · intro lm ga teamId role ms u hms hga huniq
    have hpred : ∀ m : Membership,
        (decide (m.userId = u.id) && m.confirm) = true ↔
          m.userId = u.id ∧ m.confirm = true := by
      intro m
      simp [Bool.and_eq_true, decide_eq_true_eq]
    match hfind : ms.find? (fun m => m.userId = u.id && m.confirm) with
    | none =>
      have hnone : ∀ m ∈ ms, ¬(m.userId = u.id ∧ m.confirm = true) := by
        intro m hm
        have := List.find?_eq_none.mp hfind m hm
        rw [← hpred m]
        simpa using this
      have hfalse : hasRole false lm ga teamId role = false := by
        simp [hasRole, hms, hga, hfind]
      rw [hfalse]
      simp only [Bool.false_eq_true, false_iff]
      rintro ⟨m, hm, hid, hconf, -⟩
      exact hnone m hm ⟨hid, hconf⟩
    | some m =>
      have hmem : m ∈ ms := List.mem_of_find?_eq_some hfind
      have hpm := List.find?_some hfind
      simp only [Bool.and_eq_true, decide_eq_true_eq] at hpm
      have hm : m.userId = u.id ∧ m.confirm = true := hpm
      have heval : hasRole false lm ga teamId role = m.roles.contains role := by
        simp [hasRole, hms, hga, hfind]
      rw [heval]
      constructor
      · intro hc
        exact ⟨m, hmem, hm.1, hm.2, by simpa using hc⟩
      · rintro ⟨m2, hm2, hid2, hconf2, hrole2⟩
        have : m2 = m := huniq m2 hm2 m hmem hid2 hconf2 hm.1 hm.2
        subst this
        simpa using hrole2

/-- Witness for C7 at concrete inputs: on the server false; membership
lookup throwing gives false; account lookup throwing gives false; a
confirmed membership carrying the role gives true; the same membership
without the role gives false. -/
theorem hasRole_characterization_witness :
    hasRole true (fun _ => .ok [⟨"u1", true, ["owner"]⟩]) (.ok ⟨"u1", "n", "e", []⟩)
      "t" "owner" = false
    ∧ hasRole false (fun _ => .error "boom") (.ok ⟨"u1", "n", "e", []⟩)
      "t" "owner" = false
    ∧ hasRole false (fun _ => .ok [⟨"u1", true, ["owner"]⟩]) (.error "boom")
      "t" "owner" = false
    ∧ hasRole false (fun _ => .ok [⟨"u1", true, ["owner"]⟩]) (.ok ⟨"u1", "n", "e", []⟩)
      "t" "owner" = true
    ∧ hasRole false (fun _ => .ok [⟨"u1", true, ["viewer"]⟩]) (.ok ⟨"u1", "n", "e", []⟩)
      "t" "owner" = false := by
  obtain ⟨h1, h2, h3, h4⟩ := hasRole_characterization
  refine ⟨h1 (fun _ => .ok [⟨"u1", true, ["owner"]⟩]) (.ok ⟨"u1", "n", "e", []⟩) "t" "owner",
    h2 (fun _ => .error "boom") (.ok ⟨"u1", "n", "e", []⟩) "t" "owner" "boom" rfl,
    h3 (fun _ => .ok [⟨"u1", true, ["owner"]⟩]) (.error "boom") "t" "owner" "boom"
      [⟨"u1", true, ["owner"]⟩] rfl rfl, ?_, ?_⟩
  · exact (h4 (fun _ => .ok [⟨"u1", true, ["owner"]⟩]) (.ok ⟨"u1", "n", "e", []⟩)
      "t" "owner" [⟨"u1", true, ["owner"]⟩] ⟨"u1", "n", "e", []⟩ rfl rfl
      (by decide)).mpr ⟨⟨"u1", true, ["owner"]⟩, by simp, rfl, rfl, by simp⟩
  · have h := (h4 (fun _ => .ok [⟨"u1", true, ["viewer"]⟩]) (.ok ⟨"u1", "n", "e", []⟩)
      "t" "owner" [⟨"u1", true, ["viewer"]⟩] ⟨"u1", "n", "e", []⟩ rfl rfl (by decide))
    cases hb : hasRole false (fun _ => .ok [⟨"u1", true, ["viewer"]⟩])
        (.ok ⟨"u1", "n", "e", []⟩) "t" "owner"
    · rfl
    · rw [hb] at h
      obtain ⟨m, hm, -, -, hrole⟩ := h.mp rfl
      simp at hm
      subst hm
      simp at hrole

/-- A non-falsy optional string is a present, non-empty string. -/
theorem exists_of_jsFalsy_false {x : Option String} (h : jsFalsy x = false) :
    ∃ v, x = some v ∧ v ≠ "" := by
  match x with
  | none => simp [jsFalsy] at h
  | some s =>
    refine ⟨s, rfl, fun hs => ?_⟩
    rw [jsFalsy_some, hs] at h
    exact absurd h (by decide)

/-- Evaluation of `useAppwriteSession` past the credential and admin steps:
with non-empty extracted credentials and a successful admin accessor, the
result is determined by the two backend calls, the session match and the
expiry test. -/
theorem useAppwriteSession_eval (cfg : AppwriteConfig) (req : RequestData) (api : UsersApi)
    (now : Int) (st : ServerState) (b : ServiceBundle) (st' : ServerState) (sid uid : String)
    (hadm : useAppwriteAdmin cfg st = (.ok b, st'))
    (hsid : (_extractSessionCredentials cfg.projectId req).sessionId = some sid)
    (hsne : sid ≠ "")
    (huid : (_extractSessionCredentials cfg.projectId req).userId = some uid)
    (hune : uid ≠ "") :
    useAppwriteSession cfg req api now st =
      (match api.getUser uid with
       | .error _ => (.error (.http 401 "Invalid user"), st')
       | .ok user =>
         match api.listSessions uid with
         | .error _ => (.error (.http 401 "Invalid or expired session"), st')
         | .ok sessions =>
           match sessions.find? (fun s => s.id = sid) with
           | none => (.error (.http 401 "Invalid or expired session"), st')
           | some s =>
             if s.expire < now then
               (.error (.http 401 "Invalid or expired session"), st')
             else
               (.ok user, st')) := by
  have hsf : jsFalsy (some sid) = false := by
    rw [jsFalsy_some]
    exact isEmpty_false_of_ne hsne
  have huf : jsFalsy (some uid) = false := by
    rw [jsFalsy_some]
    exact isEmpty_false_of_ne hune
  simp only [useAppwriteSession, hadm, hsid, huid, Option.getD_some, hsf, huf,
    Bool.or_self, Bool.false_eq_true, if_false]

/-- Counterexample to C1 as stated: the code tests `expiry < Date.now()`,
so a session whose expiry equals the current time is NOT rejected.  At
now = 1000 with the matching session expiring exactly at 1000 — an expiry
"at ... the current time" — the call succeeds and returns the user instead
of failing with 401 "Invalid or expired session". -/
theorem session_expiry_boundary_counterexample :
    ((1000 : Int) ≤ 1000)
    ∧ (useAppwriteSession ⟨"https://e", "p", "", "", "", "k"⟩
        ⟨some "Bearer sid", none, some "uid", []⟩
        ⟨fun _ => .ok ⟨"uid", "n", "e", []⟩, fun _ => .ok [⟨"sid", 1000⟩]⟩
        1000 initialServerState).1
      = .ok ⟨"uid", "n", "e", []⟩ := by
  exact ⟨le_refl 1000, rfl⟩

/-- C1 amended: under non-empty extracted credentials, a successful admin
accessor, a successful user lookup and a session list whose first match for
the extracted sessionId is `s`, the call fails with 401 "Invalid or expired
session" exactly when `s`'s expiry is STRICTLY before the current time, and
returns the fetched user record unchanged when the expiry is at or after
the current time (the claim said "at or before the current time" fails;
the boundary case succeeds). -/
theorem session_expiry_strict (cfg : AppwriteConfig) (req : RequestData) (api : UsersApi)
    (now : Int) (st : ServerState) (sid uid : String) (user : AppwriteUser)
    (sessions : List AppwriteSession) (s : AppwriteSession)
    (hadmin : ∃ b st', useAppwriteAdmin cfg st = (.ok b, st'))
    (hsid : (_extractSessionCredentials cfg.projectId req).sessionId = some sid)
    (hsne : sid ≠ "")
    (huid : (_extractSessionCredentials cfg.projectId req).userId = some uid)
    (hune : uid ≠ "")
    (hget : api.getUser uid = .ok user)
    (hlist : api.listSessions uid = .ok sessions)
    (hfind : sessions.find? (fun t => t.id = sid) = some s) :
    (s.expire < now → (useAppwriteSession cfg req api now st).1
        = .error (.http 401 "Invalid or expired session"))
    ∧ (now ≤ s.expire → (useAppwriteSession cfg req api now st).1 = .ok user) := by
  obtain ⟨b, st', hadm⟩ := hadmin
  have heval := useAppwriteSession_eval cfg req api now st b st' sid uid
    hadm hsid hsne huid hune
  rw [heval]
  simp only [hget, hlist, hfind]
  constructor
  · intro hexp
    simp [hexp]
  · intro hexp
    simp [not_lt.mpr hexp]

/-- Witness for the amended C1 at concrete inputs: with the matching
session expiring at 500 and now = 1000 the call fails 401 "Invalid or
expired session"; with it expiring at 1000 (not strictly before now = 1000)
the call returns the user record. -/
theorem session_expiry_strict_witness :
    (useAppwriteSession ⟨"https://e", "p", "", "", "", "k"⟩
        ⟨some "Bearer sid", none, some "uid", []⟩
        ⟨fun _ => .ok ⟨"uid", "n", "e", []⟩, fun _ => .ok [⟨"sid", 500⟩]⟩
        1000 initialServerState).1
      = .error (.http 401 "Invalid or expired session")
    ∧ (useAppwriteSession ⟨"https://e", "p", "", "", "", "k"⟩
        ⟨some "Bearer sid", none, some "uid", []⟩
        ⟨fun _ => .ok ⟨"uid", "n", "e", []⟩, fun _ => .ok [⟨"sid", 1000⟩]⟩
        1000 initialServerState).1
      = .ok ⟨"uid", "n", "e", []⟩ := by
  constructor
  · exact (session_expiry_strict ⟨"https://e", "p", "", "", "", "k"⟩
      ⟨some "Bearer sid", none, some "uid", []⟩
      ⟨fun _ => .ok ⟨"uid", "n", "e", []⟩, fun _ => .ok [⟨"sid", 500⟩]⟩
      1000 initialServerState "sid" "uid" ⟨"uid", "n", "e", []⟩ [⟨"sid", 500⟩] ⟨"sid", 500⟩
      ⟨⟨⟨0, "https://e", "p", some "k"⟩⟩, ⟨some ⟨⟨0, "https://e", "p", some "k"⟩⟩, 1⟩, rfl⟩
      (by decide) (by decide) rfl (by decide) rfl rfl (by decide)).1 (by decide)
  · exact (session_expiry_strict ⟨"https://e", "p", "", "", "", "k"⟩
      ⟨some "Bearer sid", none, some "uid", []⟩
      ⟨fun _ => .ok ⟨"uid", "n", "e", []⟩, fun _ => .ok [⟨"sid", 1000⟩]⟩
      1000 initialServerState "sid" "uid" ⟨"uid", "n", "e", []⟩ [⟨"sid", 1000⟩] ⟨"sid", 1000⟩
      ⟨⟨⟨0, "https://e", "p", some "k"⟩⟩, ⟨some ⟨⟨0, "https://e", "p", some "k"⟩⟩, 1⟩, rfl⟩
      (by decide) (by decide) rfl (by decide) rfl rfl (by decide)).2 (by decide)

/-- When either extracted credential is falsy, `useAppwriteSession` fails
401 "Authentication required" before touching the admin accessor or the
backend, leaving the state untouched. -/
theorem useAppwriteSession_authRequired (cfg : AppwriteConfig) (req : RequestData)
    (api : UsersApi) (now : Int) (st : ServerState)
    (h : jsFalsy (_extractSessionCredentials cfg.projectId req).sessionId = true
      ∨ jsFalsy (_extractSessionCredentials cfg.projectId req).userId = true) :
    useAppwriteSession cfg req api now st
      = (.error (.http 401 "Authentication required"), st) := by
  rcases h with h | h
  · simp [useAppwriteSession, h]
  · simp [useAppwriteSession, h]

/-- Counterexample to C2 as stated: with endpoint and projectId configured
but an empty API key, and valid-looking credentials supplied, the admin
accessor throws its plain configuration `Error` outside the try/catch
blocks, so `useAppwriteSession` fails with that configuration error — not
with an HTTP 401 carrying one of the three reason strings. -/
theorem session_config_error_counterexample :
    (useAppwriteSession ⟨"https://e", "p", "", "", "", ""⟩
        ⟨some "Bearer sid", none, some "uid", []⟩
        ⟨fun _ => .ok ⟨"uid", "n", "e", []⟩, fun _ => .ok []⟩ 0 initialServerState).1
      = .error (.config missingApiKeyMsg)
    ∧ (ServerError.config missingApiKeyMsg).isHttp401 = false := ⟨rfl, rfl⟩

/-- C2 amended: provided the admin accessor succeeds for the process state
(valid configuration or already-cached bundle), `useAppwriteSession` fails
only with an HTTP 401 carrying one of exactly three reason strings,
determined by the first failing step: "Authentication required" when either
extracted credential is falsy (decided before any backend call — the
statement holds for every `api`); "Invalid user" when the user lookup
throws, whatever the underlying error message (swallowed); and "Invalid or
expired session" when the session listing throws, no session matches, or
the matched session is expired. -/
theorem session_error_normalization (cfg : AppwriteConfig) (req : RequestData)
    (api : UsersApi) (now : Int) (st : ServerState)
    (hadmin : ∃ b st', useAppwriteAdmin cfg st = (.ok b, st')) :
    (∀ e, (useAppwriteSession cfg req api now st).1 = .error e →
      e = .http 401 "Authentication required" ∨ e = .http 401 "Invalid user"
        ∨ e = .http 401 "Invalid or expired session")
    ∧ ((jsFalsy (_extractSessionCredentials cfg.projectId req).sessionId = true
        ∨ jsFalsy (_extractSessionCredentials cfg.projectId req).userId = true) →
      (useAppwriteSession cfg req api now st).1
        = .error (.http 401 "Authentication required"))
    ∧ (∀ sid uid msg, (_extractSessionCredentials cfg.projectId req).sessionId = some sid →
      sid ≠ "" → (_extractSessionCredentials cfg.projectId req).userId = some uid →
      uid ≠ "" → api.getUser uid = .error msg →
      (useAppwriteSession cfg req api now st).1 = .error (.http 401 "Invalid user"))
    ∧ (∀ sid uid user, (_extractSessionCredentials cfg.projectId req).sessionId = some sid →
      sid ≠ "" → (_extractSessionCredentials cfg.projectId req).userId = some uid →
      uid ≠ "" → api.getUser uid = .ok user →
      (∀ msg, api.listSessions uid = .error msg →
        (useAppwriteSession cfg req api now st).1
          = .error (.http 401 "Invalid or expired session"))
      ∧ (∀ sessions, api.listSessions uid = .ok sessions →
        sessions.find? (fun t => t.id = sid) = none →
        (useAppwriteSession cfg req api now st).1
          = .error (.http 401 "Invalid or expired session"))
      ∧ (∀ sessions s, api.listSessions uid = .ok sessions →
        sessions.find? (fun t => t.id = sid) = some s → s.expire < now →
        (useAppwriteSession cfg req api now st).1
          = .error (.http 401 "Invalid or expired session"))) := by
  refine ⟨?_,
    fun h => by rw [useAppwriteSession_authRequired cfg req api now st h], ?_, ?_⟩
  · intro e he
    by_cases hs : jsFalsy (_extractSessionCredentials cfg.projectId req).sessionId = true
    · rw [useAppwriteSession_authRequired cfg req api now st (Or.inl hs)] at he
      have h2 : (Except.error (ServerError.http 401 "Authentication required") :
          Except ServerError AppwriteUser) = .error e := he
      injection h2 with h3
      exact Or.inl h3.symm
    · by_cases hu : jsFalsy (_extractSessionCredentials cfg.projectId req).userId = true
      · rw [useAppwriteSession_authRequired cfg req api now st (Or.inr hu)] at he
        have h2 : (Except.error (ServerError.http 401 "Authentication required") :
            Except ServerError AppwriteUser) = .error e := he
        injection h2 with h3
        exact Or.inl h3.symm
      · rw [Bool.not_eq_true] at hs hu
        obtain ⟨sid, hsid, hsne⟩ := exists_of_jsFalsy_false hs
        obtain ⟨uid, huid, hune⟩ := exists_of_jsFalsy_false hu
        obtain ⟨b, st', hadm⟩ := hadmin
        rw [useAppwriteSession_eval cfg req api now st b st' sid uid
          hadm hsid hsne huid hune] at he
        match hg : api.getUser uid with
        | .error msg =>
          simp only [hg] at he
          have h2 : (Except.error (ServerError.http 401 "Invalid user") :
              Except ServerError AppwriteUser) = .error e := he
          injection h2 with h3
          exact Or.inr (Or.inl h3.symm)
        | .ok user =>
          simp only [hg] at he
          match hl : api.listSessions uid with
          | .error msg =>
            simp only [hl] at he
            have h2 : (Except.error (ServerError.http 401 "Invalid or expired session") :
                Except ServerError AppwriteUser) = .error e := he
            injection h2 with h3
            exact Or.inr (Or.inr h3.symm)
          | .ok sessions =>
            simp only [hl] at he
            match hf : sessions.find? (fun t => t.id = sid) with
            | none =>
              simp only [hf] at he
              have h2 : (Except.error (ServerError.http 401 "Invalid or expired session") :
                  Except ServerError AppwriteUser) = .error e := he
              injection h2 with h3
              exact Or.inr (Or.inr h3.symm)
            | some s =>
              simp only [hf] at he
              by_cases hexp : s.expire < now
              · rw [if_pos hexp] at he
                have h2 : (Except.error (ServerError.http 401 "Invalid or expired session") :
                    Except ServerError AppwriteUser) = .error e := he
                injection h2 with h3
                exact Or.inr (Or.inr h3.symm)
              · rw [if_neg hexp] at he
                have h2 : (Except.ok user : Except ServerError AppwriteUser) = .error e := he
                exact absurd h2 (by simp)
  · intro sid uid msg hsid hsne huid hune hg
    obtain ⟨b, st', hadm⟩ := hadmin
    rw [useAppwriteSession_eval cfg req api now st b st' sid uid hadm hsid hsne huid hune]
    simp [hg]
  · intro sid uid user hsid hsne huid hune hget
    obtain ⟨b, st', hadm⟩ := hadmin
    have heval := useAppwriteSession_eval cfg req api now st b st' sid uid
      hadm hsid hsne huid hune
    refine ⟨?_, ?_, ?_⟩
    · intro msg hl
      rw [heval]
      simp [hget, hl]
    · intro sessions hl hf
      rw [heval]
      simp [hget, hl, hf]
    · intro sessions s hl hf hexp
      rw [heval]
      simp [hget, hl, hf, hexp]

/-- Witness for the amended C2 at concrete inputs: no credentials gives
401 "Authentication required"; credentials present but the user lookup
throwing gives 401 "Invalid user"; user lookup succeeding but the session
listing throwing gives 401 "Invalid or expired session". -/
theorem session_error_normalization_witness :
    (useAppwriteSession ⟨"https://e", "p", "", "", "", "k"⟩ ⟨none, none, none, []⟩
        ⟨fun _ => .ok ⟨"uid", "n", "e", []⟩, fun _ => .ok []⟩ 0 initialServerState).1
      = .error (.http 401 "Authentication required")
    ∧ (useAppwriteSession ⟨"https://e", "p", "", "", "", "k"⟩
        ⟨some "Bearer sid", none, some "uid", []⟩
        ⟨fun _ => .error "db down", fun _ => .ok []⟩ 0 initialServerState).1
      = .error (.http 401 "Invalid user")
    ∧ (useAppwriteSession ⟨"https://e", "p", "", "", "", "k"⟩
        ⟨some "Bearer sid", none, some "uid", []⟩
        ⟨fun _ => .ok ⟨"uid", "n", "e", []⟩, fun _ => .error "net down"⟩
        0 initialServerState).1
      = .error (.http 401 "Invalid or expired session") := by
  refine ⟨?_, ?_, ?_⟩
  · exact (session_error_normalization ⟨"https://e", "p", "", "", "", "k"⟩
      ⟨none, none, none, []⟩ ⟨fun _ => .ok ⟨"uid", "n", "e", []⟩, fun _ => .ok []⟩
      0 initialServerState
      ⟨⟨⟨0, "https://e", "p", some "k"⟩⟩, ⟨some ⟨⟨0, "https://e", "p", some "k"⟩⟩, 1⟩, rfl⟩
      ).2.1 (Or.inl (by decide))
  · exact (session_error_normalization ⟨"https://e", "p", "", "", "", "k"⟩
      ⟨some "Bearer sid", none, some "uid", []⟩
      ⟨fun _ => .error "db down", fun _ => .ok []⟩ 0 initialServerState
      ⟨⟨⟨0, "https://e", "p", some "k"⟩⟩, ⟨some ⟨⟨0, "https://e", "p", some "k"⟩⟩, 1⟩, rfl⟩
      ).2.2.1 "sid" "uid" "db down" (by decide) (by decide) (by decide) (by decide) rfl
  · exact ((session_error_normalization ⟨"https://e", "p", "", "", "", "k"⟩
      ⟨some "Bearer sid", none, some "uid", []⟩
      ⟨fun _ => .ok ⟨"uid", "n", "e", []⟩, fun _ => .error "net down"⟩ 0 initialServerState
      ⟨⟨⟨0, "https://e", "p", some "k"⟩⟩, ⟨some ⟨⟨0, "https://e", "p", some "k"⟩⟩, 1⟩, rfl⟩
      ).2.2.2 "sid" "uid" ⟨"uid", "n", "e", []⟩ (by decide) (by decide) (by decide)
      (by decide) rfl).1 "net down" rfl

end NuxtAppwrite
